import Mathlib

/-!
Verification of the risk-analytics core of the repository
(src/analytics/risk_analytics.py) against its natural-language specification.

The Python code is shallowly embedded: market values and volatilities are
rationals (floating-point rounding is not modelled; all claims are about exact
arithmetic relations), real-valued library functions (square root, normal
quantile) are modelled over the reals, missing data (pandas NaN) is `Option`,
and Python exceptions are `Except PyError`.  Random draws of the simulation
methods are inputs (a draw function), following the specification's remark that
each call is a pure function of its inputs and a random source.
-/

namespace MSRisk

/-- One row of the portfolio DataFrame used by RiskAnalytics: a position with a
symbol, a market value and a possibly missing (NaN) 30-day volatility. -/
structure Position where
  symbol : String
  market_value : ℚ
  volatility_30d : Option ℚ
  deriving Repr, DecidableEq

/-- Python exceptions that the embedded code can raise. -/
inductive PyError where
  | attributeError
  | valueError
  deriving Repr, DecidableEq

/-- portfolio_data['market_value'].sum() -/
def totalMarketValue (data : List Position) : ℚ :=
  (data.map (fun p => p.market_value)).sum

/-- Series.fillna applied to the whole volatility_30d column (line 96 of
risk_analytics.py): missing entries are replaced by the default. -/
def columnFillna (data : List Position) (d : ℚ) : List ℚ :=
  data.map (fun p => p.volatility_30d.getD d)

/-- Scalar attribute access `x.fillna(d)` as written on lines 107, 112, 138 and
167 of risk_analytics.py.  There, `position['volatility_30d']` is a scalar
float (the row is a Series, indexing yields the cell value), and a Python
float / numpy float64 has no `fillna` attribute, so the access raises
AttributeError unconditionally — whether or not the value is missing. -/
def scalarFillna (x : Option ℚ) (d : ℚ) : Except PyError ℚ :=
  .error .attributeError

/-- np.dot of two 1-D arrays: the inner product. -/
def npDot (xs ys : List ℚ) : ℚ :=
  (List.zipWith (fun a b => a * b) xs ys).sum

/-- np.dot of a 1-D array with a 0-D (scalar) array: numpy documents this case
as elementwise multiplication, so the result is again a 1-D array. -/
def npDotScalar (xs : List ℚ) (c : ℚ) : List ℚ :=
  xs.map (fun a => a * c)

/-- Per-position weights, line 91: portfolio_data['market_value'] / total. -/
def portfolioWeights (data : List Position) : List ℚ :=
  data.map (fun p => p.market_value / totalMarketValue data)

/-- Lines 95-97 of risk_analytics.py, squared (stated on the squares to stay in
ℚ; the code then takes np.sqrt elementwise, see portfolioVol):
np.dot(weights.T, np.dot(vol_filled ** 2, weights)).
The inner np.dot of the two 1-D arrays is the scalar Σ σᵢ² wᵢ; the outer
np.dot of the 1-D weights with that 0-D scalar is elementwise multiplication,
so the result is the VECTOR with entries wⱼ · Σᵢ σᵢ² wᵢ, not a scalar. -/
def portfolioVolSq (data : List Position) : List ℚ :=
  npDotScalar (portfolioWeights data)
    (npDot ((columnFillna data (1/5)).map (fun v => v ^ 2)) (portfolioWeights data))

/-- portfolio_vol as the code computes it: np.sqrt of the vector above. -/
noncomputable def portfolioVol (data : List Position) : List ℝ :=
  (portfolioVolSq data).map (fun s => Real.sqrt (s : ℝ))

/-- Formalisation of the SPEC's formula (squared), for comparison with the
code: portfolio volatility = √(Σᵢ wᵢ² · σᵢ²), a scalar. -/
def specPortfolioVolSq (data : List Position) : ℚ :=
  (List.zipWith (fun w v => w ^ 2 * v ^ 2)
    (portfolioWeights data) (columnFillna data (1/5))).sum

/-- Line 101: var_absolute = total_value * portfolio_vol * np.sqrt(t) * z.
Since portfolio_vol is a vector, numpy broadcasting makes this a vector. -/
noncomputable def parametricVarAbs (data : List Position) (t : ℕ) (z : ℝ) : List ℝ :=
  (portfolioVol data).map
    (fun v => (totalMarketValue data : ℝ) * v * Real.sqrt (t : ℝ) * z)

/-- Line 102: var_percentage = var_absolute / total_value (broadcast). -/
noncomputable def parametricVarPct (data : List Position) (t : ℕ) (z : ℝ) : List ℝ :=
  (parametricVarAbs data t z).map (fun a => a / (totalMarketValue data : ℝ))

/- ----------------------------------------------------------------- -/
/- np.percentile with the default linear interpolation.              -/
/- ----------------------------------------------------------------- -/

/-- Insertion into a sorted list (ascending), for the sort inside
np.percentile. -/
def insertSorted {α : Type} [LinearOrder α] (x : α) : List α → List α
  | [] => [x]
  | y :: ys => if x ≤ y then x :: y :: ys else y :: insertSorted x ys

/-- Ascending sort, as np.percentile sorts its input. -/
def sortAsc {α : Type} [LinearOrder α] (l : List α) : List α :=
  l.foldr insertSorted []

/-- np.percentile(values, q) with the default linear interpolation between
order statistics: with the data sorted ascending and h = (n-1)·q/100,
the result is a[⌊h⌋] + (h - ⌊h⌋)·(a[⌊h⌋+1] - a[⌊h⌋]).  Matches numpy for
0 ≤ q ≤ 100 on non-empty input (the only way the source calls it). -/
def npPercentile {α : Type} [LinearOrderedField α] [FloorRing α]
    (values : List α) (q : α) : α :=
  let sorted := sortAsc values
  let n := sorted.length
  let h : α := ((n : α) - 1) * q / 100
  let i : ℕ := (Int.floor h).toNat
  let lo := sorted.getD i 0
  let hi := sorted.getD (i + 1) lo
  lo + (h - (i : α)) * (hi - lo)

/-- Lines 145-147 (historical method): var_absolute is the (1-c)·100 percentile
of the simulated portfolio returns, var_percentage divides by the total
market value.  The fields as the return dict carries them. -/
def historical_var_fields {α : Type} [LinearOrderedField α] [FloorRing α]
    (portfolioReturns : List α) (confidence : α) (total : α) : α × α :=
  let a := npPercentile portfolioReturns ((1 - confidence) * 100)
  (a, a / total)

/-- Lines 175-180 (Monte Carlo method): var_absolute is the (1-c)·100
percentile of the trial return series scaled back by the initial value,
var_percentage divides by the initial value. -/
def monte_carlo_var_fields {α : Type} [LinearOrderedField α] [FloorRing α]
    (portfolioReturns : List α) (confidence : α) (initial : α) : α × α :=
  let a := npPercentile portfolioReturns ((1 - confidence) * 100) * initial
  (a, a / initial)

/- ----------------------------------------------------------------- -/
/- Stress testing (lines 266-294).                                   -/
/- ----------------------------------------------------------------- -/

/-- A stress scenario row; `scenario.get(field, 0)` on a pandas Series returns
the default when the field is absent, so fields are optional. -/
structure StressScenario where
  equity_shock : Option ℚ
  interest_rate_shock : Option ℚ
  credit_spread_shock : Option ℚ
  currency_shock : Option ℚ
  volatility_shock : Option ℚ
  deriving Repr, DecidableEq

/-- The scenario_impact sub-dict of the stress result (lines 287-293). -/
structure ScenarioImpact where
  equity_shock : ℚ
  interest_rate_shock : ℚ
  credit_spread_shock : ℚ
  currency_shock : ℚ
  volatility_shock : ℚ
  deriving Repr, DecidableEq

/-- The dict returned by _apply_stress_scenario (lines 282-294). -/
structure StressResult where
  initial_portfolio_value : ℚ
  stressed_portfolio_value : ℚ
  portfolio_loss : ℚ
  portfolio_loss_percentage : Option ℚ
  scenario_impact : ScenarioImpact
  deriving Repr, DecidableEq

/-- numpy float division.  Division of np.float64 by zero does NOT raise in
Python: it emits a RuntimeWarning and yields a non-finite value (inf or nan).
`none` models that non-finite outcome; for a non-zero denominator the result
is the exact quotient. -/
def floatDiv (a b : ℚ) : Option ℚ :=
  if b = 0 then none else some (a / b)

/-- _apply_stress_scenario (lines 266-294): only the equity shock is applied to
the position values; the other four shocks are merely copied into
scenario_impact.  No operation in the body can raise: the only division is
numpy float division (see floatDiv). -/
def apply_stress_scenario (data : List Position) (s : StressScenario) : StressResult :=
  let initial := totalMarketValue data
  let stressedValues := data.map (fun p => p.market_value * (1 + s.equity_shock.getD 0))
  let stressed := stressedValues.sum
  let loss := initial - stressed
  { initial_portfolio_value := initial
    stressed_portfolio_value := stressed
    portfolio_loss := loss
    portfolio_loss_percentage := floatDiv loss initial
    scenario_impact :=
      { equity_shock := s.equity_shock.getD 0
        interest_rate_shock := s.interest_rate_shock.getD 0
        credit_spread_shock := s.credit_spread_shock.getD 0
        currency_shock := s.currency_shock.getD 0
        volatility_shock := s.volatility_shock.getD 0 } }

/- ----------------------------------------------------------------- -/
/- The standard normal distribution, modelling scipy.stats.norm.     -/
/- ----------------------------------------------------------------- -/

open MeasureTheory ProbabilityTheory Set Filter

open scoped Topology

/-- scipy.stats.norm.cdf: the standard normal cumulative distribution
function, i.e. the measure of (-∞, x] under the Gaussian with mean 0 and
variance 1. -/
noncomputable def stdNormalCDF (x : ℝ) : ℝ :=
  ProbabilityTheory.cdf (gaussianReal 0 1) x

/-- scipy.stats.norm.pdf: the standard normal density. -/
noncomputable def normPdf (z : ℝ) : ℝ :=
  gaussianPDFReal 0 1 z

/-- scipy.stats.norm.ppf: the standard normal quantile function, the
generalized inverse of the cdf. -/
noncomputable def normPpf (c : ℝ) : ℝ :=
  sInf {x : ℝ | c ≤ stdNormalCDF x}

/- ----------------------------------------------------------------- -/
/- The three VaR methods and the public entry points.                -/
/- ----------------------------------------------------------------- -/

/-- The dict returned by _calculate_parametric_var (lines 117-124).  All
numeric outputs are vectors because portfolio_vol is a vector (see
portfolioVolSq); component_var would hold the per-position entries. -/
structure ParamResult where
  var_absolute : List ℝ
  var_percentage : List ℝ
  portfolio_volatility : List ℝ
  z_score : ℝ
  component_var : List ℚ

/-- A Python for-loop that collects one value per element and propagates the
first raised exception. -/
def exceptMapList {α β : Type} (f : α → Except PyError β) : List α → Except PyError (List β)
  | [] => .ok []
  | a :: l => do
      let b ← f a
      let bs ← exceptMapList f l
      pure (b :: bs)

/-- The component-VaR loop, lines 104-115.  Each iteration first evaluates
position['volatility_30d'].fillna(0.2) (line 107), which raises
AttributeError on the scalar cell; the construction of the entry dict past
that expression is unreachable and therefore not modelled further. -/
def componentVarLoop (data : List Position) : Except PyError (List ℚ) :=
  exceptMapList (fun p => scalarFillna p.volatility_30d (1/5)) data

/-- _calculate_parametric_var (lines 86-124).  z models
stats.norm.ppf(confidence_level) (line 100).  The var fields of lines 99-102
are computed before the component loop, which then raises for every
non-empty portfolio. -/
noncomputable def calculate_parametric_var (data : List Position) (confidence : ℚ)
    (t : ℕ) : Except PyError ParamResult := do
  let z := normPpf (confidence : ℝ)
  let comps ← componentVarLoop data
  pure { var_absolute := parametricVarAbs data t z
         var_percentage := parametricVarPct data t z
         portfolio_volatility := portfolioVol data
         z_score := z
         component_var := comps }

/-- The dict returned by _calculate_historical_var (lines 149-154). -/
structure HistResult where
  var_absolute : ℚ
  var_percentage : ℚ
  simulation_count : ℕ
  deriving Repr, DecidableEq

/-- np.sum(list_of_arrays, axis=0): elementwise sum (line 143). -/
def sumColumns : List (List ℚ) → List ℚ
  | [] => []
  | [r] => r
  | r :: rs => List.zipWith (fun a b => a + b) r (sumColumns rs)

/-- _calculate_historical_var (lines 126-154).  rand i stands for the 1000
standard normal draws for position i; np.random.normal(0, vol, n)
is vol·ξ for standard ξ, and the draws are then scaled by market_value
(line 140).  Line 138 applies fillna to the scalar cell, raising
AttributeError for every position.  The t parameter is accepted and unused,
exactly as time_horizon is in the source. -/
def calculate_historical_var (data : List Position) (confidence : ℚ) (t : ℕ)
    (rand : ℕ → List ℚ) : Except PyError HistResult := do
  let scaled ← exceptMapList (fun ip => do
      let vol ← scalarFillna ip.2.volatility_30d (1/5)
      pure ((rand ip.1).map (fun x => x * vol * ip.2.market_value))) data.enum
  let portfolioReturns := sumColumns scaled
  let fields := historical_var_fields portfolioReturns confidence (totalMarketValue data)
  pure { var_absolute := fields.1
         var_percentage := fields.2
         simulation_count := 1000 }

/-- The dict returned by _calculate_monte_carlo_var (lines 182-187). -/
structure MCResult where
  var_absolute : ℝ
  var_percentage : ℝ
  simulation_count : ℕ

/-- The inner accumulation of one Monte Carlo trial (lines 165-171),
folding scenario_value over the positions. -/
noncomputable def mcTrialLoop (t : ℕ) (draw : ℕ → ℝ) :
    ℝ → List (ℕ × Position) → Except PyError ℝ
  | acc, [] => .ok acc
  | acc, ip :: rest => do
      let vol ← scalarFillna ip.2.volatility_30d (1/5)
      mcTrialLoop t draw
        (acc + (ip.2.market_value : ℝ)
          * (1 + draw ip.1 * (vol : ℝ) * Real.sqrt (t : ℝ))) rest

/-- One Monte Carlo trial (lines 164-173).  draw i is the standard normal
draw for position i; np.random.normal(0, vol·√t) = vol·√t·ξ.  Raises at the
scalar fillna of line 167 as soon as the portfolio is non-empty. -/
noncomputable def mcTrial (data : List Position) (t : ℕ) (draw : ℕ → ℝ) :
    Except PyError ℝ :=
  mcTrialLoop t draw 0 data.enum

/-- _calculate_monte_carlo_var (lines 156-187): 10000 trials, then the
percentile of the return series scaled back by the initial value. -/
noncomputable def calculate_monte_carlo_var (data : List Position) (confidence : ℚ)
    (t : ℕ) (rand : ℕ → ℕ → ℝ) : Except PyError MCResult := do
  let portfolioValues ← exceptMapList (fun k => mcTrial data t (rand k)) (List.range 10000)
  let initial : ℝ := (totalMarketValue data : ℝ)
  let portfolioReturns := portfolioValues.map (fun pv => (pv - initial) / initial)
  let fields := monte_carlo_var_fields portfolioReturns (confidence : ℝ) initial
  pure { var_absolute := fields.1
         var_percentage := fields.2
         simulation_count := 10000 }

/-- The method-specific part of the result of calculate_portfolio_var. -/
inductive MethodResult where
  | parametric : ParamResult → MethodResult
  | historical : HistResult → MethodResult
  | monteCarlo : MCResult → MethodResult

/-- The dict returned by calculate_portfolio_var after the update of lines
70-77 (string/timestamp context fields are not modelled). -/
structure VarReport where
  result : MethodResult
  confidence_level : ℚ
  time_horizon : ℕ
  total_portfolio_value : ℚ

/-- Python `x or d` for an optional float argument: both None and 0.0 are
falsy, so both fall back to the default (lines 48, 202, 208, 209, 217). -/
def pyOrQ : Option ℚ → ℚ → ℚ
  | none, d => d
  | some x, d => if x = 0 then d else x

/-- Python `x or d` for an optional int argument: None and 0 are falsy
(line 49). -/
def pyOrNat : Option ℕ → ℕ → ℕ
  | none, d => d
  | some x, d => if x = 0 then d else x

/-- calculate_portfolio_var (lines 33-84).  Falsy confidence/horizon arguments
are replaced by the config defaults 0.99 and 1 (lines 48-49, config.py lines
56-57).  Empty data logs a warning and returns {} — modelled .ok none — before
any method dispatch (lines 55-57); an unsupported method name raises
ValueError (line 67). -/
noncomputable def calculate_portfolio_var (data : List Position) (method : String)
    (confidence_level : Option ℚ) (time_horizon : Option ℕ)
    (randH : ℕ → List ℚ) (randMC : ℕ → ℕ → ℝ) :
    Except PyError (Option VarReport) := do
  let c := pyOrQ confidence_level (99/100)
  let t := pyOrNat time_horizon 1
  if data.isEmpty then
    pure none
  else do
    let r ← (match method with
      | "parametric" => (fun x => MethodResult.parametric x) <$> calculate_parametric_var data c t
      | "historical" => (fun x => MethodResult.historical x) <$> calculate_historical_var data c t randH
      | "monte_carlo" => (fun x => MethodResult.monteCarlo x) <$> calculate_monte_carlo_var data c t randMC
      | _ => .error .valueError)
    pure (some { result := r
                 confidence_level := c
                 time_horizon := t
                 total_portfolio_value := totalMarketValue data })

/-- var_result.get('portfolio_volatility', 0.2) (line 205).  Only the
parametric branch is reachable on this call path; the scalar default of the
dead branches is represented as a one-element vector. -/
noncomputable def getPortfolioVolatility : MethodResult → List ℝ
  | .parametric p => p.portfolio_volatility
  | _ => [1/5]

/-- var_result['var_absolute'] (line 214), wrapped as a vector in the dead
non-parametric branches. -/
noncomputable def getVarAbsolute : MethodResult → List ℝ
  | .parametric p => p.var_absolute
  | .historical h => [(h.var_absolute : ℝ)]
  | .monteCarlo m => [m.var_absolute]

/-- The dict returned by calculate_expected_shortfall (lines 212-219). -/
structure ESResult where
  var_absolute : List ℝ
  expected_shortfall : List ℝ
  es_percentage : List ℝ
  confidence_level : ℚ

/-- calculate_expected_shortfall (lines 189-223): first computes parametric
VaR through calculate_portfolio_var; {} from that call propagates as .ok none
(lines 196-197); otherwise ES = total · portfolio_vol · √(var_time_horizon) ·
normal_density(z)/(1-c) with the config horizon 1 (lines 204-210). -/
noncomputable def calculate_expected_shortfall (data : List Position)
    (confidence_level : Option ℚ) (randH : ℕ → List ℚ) (randMC : ℕ → ℕ → ℝ) :
    Except PyError (Option ESResult) := do
  let varResult ← calculate_portfolio_var data "parametric" confidence_level none randH randMC
  match varResult with
  | none => pure none
  | some vr => do
      let total := totalMarketValue data
      let pvol := getPortfolioVolatility vr.result
      let z := normPpf ((pyOrQ confidence_level (99/100) : ℚ) : ℝ)
      let esFactor := normPdf z / (1 - ((pyOrQ confidence_level (99/100) : ℚ) : ℝ))
      let es := pvol.map (fun v => (total : ℝ) * v * Real.sqrt ((1 : ℕ) : ℝ) * esFactor)
      pure (some { var_absolute := getVarAbsolute vr.result
                   expected_shortfall := es
                   es_percentage := es.map (fun e => e / (total : ℝ))
                   confidence_level := pyOrQ confidence_level (99/100) })

/- ----------------------------------------------------------------- -/
/- Properties of the normal cdf and quantile model.                  -/
/- ----------------------------------------------------------------- -/

lemma stdNormalCDF_mono : Monotone stdNormalCDF :=
  monotone_cdf _

lemma stdNormalCDF_tendsto_atTop : Tendsto stdNormalCDF atTop (𝓝 1) :=
  tendsto_cdf_atTop _

lemma stdNormalCDF_tendsto_atBot : Tendsto stdNormalCDF atBot (𝓝 0) :=
  tendsto_cdf_atBot _

lemma normPpf_set_nonempty {c : ℝ} (hc : c < 1) :
    {x : ℝ | c ≤ stdNormalCDF x}.Nonempty := by
  obtain ⟨x, hx⟩ := (stdNormalCDF_tendsto_atTop.eventually_const_lt hc).exists
  exact ⟨x, hx.le⟩

lemma normPpf_set_bddBelow {c : ℝ} (hc : 0 < c) :
    BddBelow {x : ℝ | c ≤ stdNormalCDF x} := by
  obtain ⟨x0, hx0⟩ := (stdNormalCDF_tendsto_atBot.eventually_lt_const hc).exists
  refine ⟨x0, fun y hy => ?_⟩
  by_contra hlt
  push_neg at hlt
  exact absurd (le_trans hy (stdNormalCDF_mono hlt.le)) (not_le.mpr hx0)

/-- The quantile function is monotone on (0, 1). -/
lemma normPpf_le_normPpf {c1 c2 : ℝ} (h0 : 0 < c1) (h12 : c1 ≤ c2) (h1 : c2 < 1) :
    normPpf c1 ≤ normPpf c2 :=
  csInf_le_csInf (normPpf_set_bddBelow h0) (normPpf_set_nonempty h1)
    (fun x hx => le_trans h12 hx)

/-- The standard Gaussian is symmetric under negation. -/
lemma gaussianReal_map_neg :
    (gaussianReal 0 1).map (fun x => -x) = gaussianReal 0 1 := by
  have h := gaussianReal_map_const_mul (μ := 0) (v := 1) (-1)
  rw [show (fun x : ℝ => -x) = (fun x : ℝ => -1 * x) from funext (fun x => (neg_one_mul x).symm)]
  rw [h]
  congr 1
  · norm_num
  · refine NNReal.coe_injective ?_
    norm_num

lemma gaussian_Iic_eq_Ici :
    gaussianReal 0 1 (Iic (0 : ℝ)) = gaussianReal 0 1 (Ici (0 : ℝ)) := by
  conv_lhs => rw [← gaussianReal_map_neg]
  rw [Measure.map_apply measurable_neg measurableSet_Iic]
  congr 1
  ext x
  simp [neg_nonpos]

lemma gaussian_singleton_zero : gaussianReal 0 1 ({0} : Set ℝ) = 0 :=
  gaussianReal_absolutelyContinuous 0 one_ne_zero (measure_singleton 0)

lemma gaussian_Ici_eq_Ioi :
    gaussianReal 0 1 (Ici (0 : ℝ)) = gaussianReal 0 1 (Ioi (0 : ℝ)) := by
  have hset : Ici (0 : ℝ) = {0} ∪ Ioi 0 := by
    rw [← Set.insert_eq, Set.Ioi_insert]
  rw [hset]
  refine le_antisymm ((measure_union_le _ _).trans ?_) (measure_mono subset_union_right)
  rw [gaussian_singleton_zero, zero_add]

/-- The standard normal cdf at 0 is 1/2 (by symmetry of the Gaussian). -/
lemma stdNormalCDF_zero : stdNormalCDF 0 = 1 / 2 := by
  have hIic : gaussianReal 0 1 (Iic (0 : ℝ)) = gaussianReal 0 1 (Ioi (0 : ℝ)) :=
    gaussian_Iic_eq_Ici.trans gaussian_Ici_eq_Ioi
  have hcompl : gaussianReal 0 1 (Iic (0 : ℝ)) + gaussianReal 0 1 (Ioi (0 : ℝ)) = 1 := by
    have h := measure_add_measure_compl (μ := gaussianReal 0 1) (measurableSet_Iic (a := (0 : ℝ)))
    rw [Set.compl_Iic, measure_univ] at h
    exact h
  rw [← hIic] at hcompl
  have hne : gaussianReal 0 1 (Iic (0 : ℝ)) ≠ ⊤ := measure_ne_top _ _
  have h2 : (gaussianReal 0 1 (Iic (0 : ℝ))).toReal
      + (gaussianReal 0 1 (Iic (0 : ℝ))).toReal = 1 := by
    rw [← ENNReal.toReal_add hne hne, hcompl, ENNReal.one_toReal]
  have hc : stdNormalCDF 0 = (gaussianReal 0 1 (Iic (0 : ℝ))).toReal := cdf_eq_toReal _ _
  rw [hc]
  linarith

/-- Quantiles above the median are non-negative. -/
lemma normPpf_nonneg {c : ℝ} (h2 : 1 / 2 < c) (h1 : c < 1) : 0 ≤ normPpf c := by
  refine le_csInf (normPpf_set_nonempty h1) (fun y hy => ?_)
  by_contra hneg
  push_neg at hneg
  have hle : stdNormalCDF y ≤ stdNormalCDF 0 := stdNormalCDF_mono hneg.le
  rw [stdNormalCDF_zero] at hle
  exact absurd (le_trans hy hle) (not_le.mpr h2)

/- ----------------------------------------------------------------- -/
/- General helper lemmas.                                            -/
/- ----------------------------------------------------------------- -/

lemma exceptMapList_error_head {α β : Type} (f : α → Except PyError β) (e : PyError)
    (a : α) (l : List α) (h : f a = .error e) :
    exceptMapList f (a :: l) = .error e := by
  simp only [exceptMapList, h]
  rfl

lemma exceptMapList_range_error {β : Type} (f : ℕ → Except PyError β) (e : PyError)
    (h : f 0 = .error e) (n : ℕ) (hn : n ≠ 0) :
    exceptMapList f (List.range n) = .error e := by
  obtain ⟨m, rfl⟩ := Nat.exists_eq_succ_of_ne_zero hn
  rw [List.range_succ_eq_map]
  exact exceptMapList_error_head _ _ _ _ h

lemma monte_carlo_raises (p : Position) (c : ℚ) (t : ℕ) (rand : ℕ → ℕ → ℝ) :
    calculate_monte_carlo_var [p] c t rand = .error .attributeError := by
  have h1 : mcTrial [p] t (rand 0) = .error .attributeError := rfl
  have h2 := exceptMapList_range_error (fun k => mcTrial [p] t (rand k))
    .attributeError h1 10000 (by norm_num)
  simp [calculate_monte_carlo_var, h2]

lemma forall2_map_map {α β : Type} (f g : α → β) (r : β → β → Prop) (l : List α)
    (h : ∀ a ∈ l, r (f a) (g a)) : List.Forall₂ r (l.map f) (l.map g) := by
  induction l with
  | nil => exact List.Forall₂.nil
  | cons a l ih =>
      exact List.Forall₂.cons (h a (List.mem_cons_self a l))
        (ih (fun b hb => h b (List.mem_cons_of_mem _ hb)))

lemma forall2_map_self {α β : Type} (f : α → β) (r : β → α → Prop) (l : List α)
    (h : ∀ a ∈ l, r (f a) a) : List.Forall₂ r (l.map f) l := by
  induction l with
  | nil => exact List.Forall₂.nil
  | cons a l ih =>
      exact List.Forall₂.cons (h a (List.mem_cons_self a l))
        (ih (fun b hb => h b (List.mem_cons_of_mem _ hb)))

/- ----------------------------------------------------------------- -/
/- The claims.                                                       -/
/- ----------------------------------------------------------------- -/

/-- C1: the claim says the parametric method computes a SCALAR portfolio
volatility √(Σᵢ wᵢ² σᵢ²).  In the code, np.dot(weights.T, np.dot(σ², w)) is a
VECTOR (the outer np.dot multiplies the weight vector by the scalar Σᵢ σᵢ²wᵢ):
on the two-position portfolio (80000, σ=0.1), (20000, σ=0.3) the squared
volatility vector is [13/625, 13/2500] while the spec formula gives the scalar
1/100, and the two disagree in every component; moreover the method raises
AttributeError in its component loop before returning anything. -/
theorem parametric_vol_vector_bug :
    portfolioVolSq [⟨"A", 80000, some (1/10)⟩, ⟨"B", 20000, some (3/10)⟩]
      = [13/625, 13/2500]
  ∧ specPortfolioVolSq [⟨"A", 80000, some (1/10)⟩, ⟨"B", 20000, some (3/10)⟩]
      = 1/100
  ∧ portfolioVolSq [⟨"A", 80000, some (1/10)⟩, ⟨"B", 20000, some (3/10)⟩]
      ≠ [specPortfolioVolSq [⟨"A", 80000, some (1/10)⟩, ⟨"B", 20000, some (3/10)⟩],
         specPortfolioVolSq [⟨"A", 80000, some (1/10)⟩, ⟨"B", 20000, some (3/10)⟩]]
  ∧ calculate_parametric_var [⟨"A", 80000, some (1/10)⟩, ⟨"B", 20000, some (3/10)⟩]
      (99/100) 1 = .error .attributeError := by
  refine ⟨?_, ?_, ?_, rfl⟩
  · norm_num [portfolioVolSq, portfolioWeights, totalMarketValue, columnFillna,
      npDot, npDotScalar]
  · norm_num [specPortfolioVolSq, portfolioWeights, totalMarketValue, columnFillna]
  · norm_num [portfolioVolSq, specPortfolioVolSq, portfolioWeights,
      totalMarketValue, columnFillna, npDot, npDotScalar]

/-- C2 counterexample: calculate_portfolio_var on an empty position collection
does NOT fail — it returns the empty dict (.ok none). -/
theorem empty_portfolio_var_returns_ok :
    calculate_portfolio_var [] "parametric" none none (fun _ => []) (fun _ _ => 0)
      = .ok none := rfl

/-- C2 amended: for every method string and every choice of parameters,
calculate_portfolio_var on an empty position collection logs a warning and
returns the empty dict {} (modelled .ok none) instead of raising — the empty
check of lines 55-57 precedes even the method-name validation. -/
theorem empty_portfolio_var_returns_empty_dict (method : String) (c : Option ℚ)
    (t : Option ℕ) (randH : ℕ → List ℚ) (randMC : ℕ → ℕ → ℝ) :
    calculate_portfolio_var [] method c t randH randMC = .ok none := rfl

/-- C3: no VaR method ever substitutes the default 0.20 in its per-position
loop and completes: lines 107, 138 and 167 call .fillna on a scalar float,
which raises AttributeError for every position — whether its volatility is
missing (first three conjuncts) or present (last conjunct). -/
theorem fillna_scalar_raises :
    calculate_parametric_var [⟨"AAPL", 100000, none⟩] (99/100) 1
      = .error .attributeError
  ∧ calculate_historical_var [⟨"AAPL", 100000, none⟩] (99/100) 1 (fun _ => [])
      = .error .attributeError
  ∧ calculate_monte_carlo_var [⟨"AAPL", 100000, none⟩] (99/100) 1 (fun _ _ => 0)
      = .error .attributeError
  ∧ calculate_parametric_var [⟨"MSFT", 100000, some (1/4)⟩] (99/100) 1
      = .error .attributeError :=
  ⟨rfl, rfl, monte_carlo_raises _ _ _ _, rfl⟩

/-- C4: calculate_expected_shortfall never returns a value for a non-empty
portfolio: its internal parametric VaR call raises AttributeError in the
component loop, so no Expected Shortfall is ever compared to a VaR. -/
theorem expected_shortfall_raises :
    calculate_expected_shortfall [⟨"AAPL", 100000, some (1/4)⟩] (some (49/50))
      (fun _ => []) (fun _ _ => 0) = .error .attributeError := rfl

/-- C5: var_absolute is not a non-negative loss magnitude.  The historical and
Monte Carlo return expressions (lines 145-147, 175-180) are the signed
(1-c)-quantile of the simulated return distribution: at confidence 0.99 on
trials whose portfolio returns are -100, -50, -80 the historical var_absolute
is the interpolated 1st percentile -99.6 < 0 (and var_percentage is negative
as well); the Monte Carlo var_absolute on returns -0.1, -0.05, -0.08 with
initial value 100000 is -9960 < 0.  The full methods also raise AttributeError
before even reaching these lines (see fillna_scalar_raises). -/
theorem var_sign_bug :
    (historical_var_fields ([-100, -50, -80] : List ℚ) (99/100) 250000).1 < 0
  ∧ (historical_var_fields ([-100, -50, -80] : List ℚ) (99/100) 250000).2 < 0
  ∧ (monte_carlo_var_fields ([-1/10, -1/20, -2/25] : List ℚ) (99/100) 100000).1 < 0
  ∧ calculate_historical_var [⟨"GS", 50000, some (3/10)⟩] (99/100) 1
      (fun _ => [1, -1]) = .error .attributeError := by
  refine ⟨?_, ?_, ?_, rfl⟩
  · norm_num [historical_var_fields, npPercentile, sortAsc, insertSorted]
  · norm_num [historical_var_fields, npPercentile, sortAsc, insertSorted]
  · norm_num [monte_carlo_var_fields, npPercentile, sortAsc, insertSorted]

/-- C6: _apply_stress_scenario multiplies every position value by
(1 + equity_shock); the stressed value depends only on the equity shock (the
other four shocks are merely copied into scenario_impact); the reported loss
is initial - stressed and, when the initial value is non-zero, the loss
percentage is loss/initial; the -0.40 shock on a single 100000 position gives
60000 / 40000 / 40%, and the all-zero scenario leaves the value unchanged with
zero loss. -/
theorem stress_scenario_spec (data : List Position) (s : StressScenario) :
    (apply_stress_scenario data s).initial_portfolio_value = totalMarketValue data
  ∧ (apply_stress_scenario data s).stressed_portfolio_value
      = (data.map (fun p => p.market_value * (1 + s.equity_shock.getD 0))).sum
  ∧ (apply_stress_scenario data s).portfolio_loss
      = totalMarketValue data - (apply_stress_scenario data s).stressed_portfolio_value
  ∧ (∀ s2 : StressScenario, s2.equity_shock = s.equity_shock →
      (apply_stress_scenario data s2).stressed_portfolio_value
        = (apply_stress_scenario data s).stressed_portfolio_value)
  ∧ (totalMarketValue data ≠ 0 →
      (apply_stress_scenario data s).portfolio_loss_percentage
        = some ((apply_stress_scenario data s).portfolio_loss / totalMarketValue data))
  ∧ apply_stress_scenario [⟨"POS", 100000, none⟩] ⟨some (-2/5), none, none, none, none⟩
      = ⟨100000, 60000, 40000, some (2/5), ⟨-2/5, 0, 0, 0, 0⟩⟩
  ∧ apply_stress_scenario [⟨"POS", 100000, none⟩] ⟨some 0, some 0, some 0, some 0, some 0⟩
      = ⟨100000, 100000, 0, some 0, ⟨0, 0, 0, 0, 0⟩⟩ := by
  refine ⟨rfl, rfl, rfl, ?_, ?_, ?_, ?_⟩
  · intro s2 h2
    simp [apply_stress_scenario, h2]
  · intro hne
    simp [apply_stress_scenario, floatDiv, hne]
  · norm_num [apply_stress_scenario, totalMarketValue, floatDiv]
  · norm_num [apply_stress_scenario, totalMarketValue, floatDiv]

/-- C6 witness: the general theorem applied to the single 100000 position and
the -0.40 equity scenario, discharging the non-zero-total hypothesis there. -/
theorem stress_scenario_spec_witness :
    totalMarketValue [⟨"POS", 100000, none⟩] ≠ 0
  ∧ (apply_stress_scenario [⟨"POS", 100000, none⟩]
        ⟨some (-2/5), none, none, none, none⟩).portfolio_loss_percentage
      = some ((apply_stress_scenario [⟨"POS", 100000, none⟩]
          ⟨some (-2/5), none, none, none, none⟩).portfolio_loss
        / totalMarketValue [⟨"POS", 100000, none⟩]) :=
  ⟨by norm_num [totalMarketValue],
    (stress_scenario_spec [⟨"POS", 100000, none⟩]
      ⟨some (-2/5), none, none, none, none⟩).2.2.2.2.1
      (by norm_num [totalMarketValue])⟩

/-- C7 counterexample: on a portfolio whose total market value is zero the
stress test does NOT fail with any error — no guard exists; it returns a full
result whose loss percentage is the non-finite outcome of the numpy division
by zero (modelled none). -/
theorem zero_total_stress_produces_result :
    apply_stress_scenario [⟨"Z", 0, none⟩] ⟨some (-2/5), none, none, none, none⟩
      = ⟨0, 0, 0, none, ⟨-2/5, 0, 0, 0, 0⟩⟩ := by
  norm_num [apply_stress_scenario, totalMarketValue, floatDiv]

/-- C7 amended: for every portfolio with zero total market value and every
scenario, _apply_stress_scenario runs to completion (nothing in its body can
raise; numpy float division by zero only warns) and reports a non-finite
loss percentage, with the initial value reported as 0. -/
theorem zero_total_stress_nonfinite_pct (data : List Position) (s : StressScenario)
    (h : totalMarketValue data = 0) :
    (apply_stress_scenario data s).portfolio_loss_percentage = none
  ∧ (apply_stress_scenario data s).initial_portfolio_value = 0 := by
  constructor
  · simp [apply_stress_scenario, floatDiv, h]
  · simp [apply_stress_scenario, h]

/-- C7 witness: the amended theorem at a concrete one-position portfolio of
market value zero. -/
theorem zero_total_stress_nonfinite_pct_witness :
    totalMarketValue [⟨"Z", 0, none⟩] = 0
  ∧ ((apply_stress_scenario [⟨"Z", 0, none⟩]
        ⟨some (-2/5), none, none, none, none⟩).portfolio_loss_percentage = none
    ∧ (apply_stress_scenario [⟨"Z", 0, none⟩]
        ⟨some (-2/5), none, none, none, none⟩).initial_portfolio_value = 0) :=
  ⟨by norm_num [totalMarketValue],
    zero_total_stress_nonfinite_pct [⟨"Z", 0, none⟩]
      ⟨some (-2/5), none, none, none, none⟩ (by norm_num [totalMarketValue])⟩

/-- C8: in each of the three methods the var_percentage field is exactly
var_absolute divided by the portfolio value, as built by the return
expressions of lines 99-102, 145-147 and 175-180 (componentwise for the
parametric vector); stated multiplicatively under the non-zero-denominator
hypothesis under which the float division is exact. -/
theorem var_percentage_consistent (data : List Position) (t : ℕ) (z : ℝ)
    (hT : (totalMarketValue data : ℝ) ≠ 0)
    (rets : List ℚ) (c total : ℚ) (hq : total ≠ 0)
    (retsR : List ℝ) (cR initR : ℝ) (hr : initR ≠ 0) :
    List.Forall₂ (fun pct a => pct * (totalMarketValue data : ℝ) = a)
      (parametricVarPct data t z) (parametricVarAbs data t z)
  ∧ (historical_var_fields rets c total).2 * total
      = (historical_var_fields rets c total).1
  ∧ (monte_carlo_var_fields retsR cR initR).2 * initR
      = (monte_carlo_var_fields retsR cR initR).1 := by
  refine ⟨?_, ?_, ?_⟩
  · exact forall2_map_self _ _ _ (fun a _ => div_mul_cancel₀ a hT)
  · simp only [historical_var_fields]
    exact div_mul_cancel₀ _ hq
  · simp only [monte_carlo_var_fields]
    exact div_mul_cancel₀ _ hr

/-- C8 witness: the consistency theorem at a concrete portfolio, return lists
and denominators, discharging the three non-zero hypotheses there. -/
theorem var_percentage_consistent_witness :
    (totalMarketValue [⟨"A", 100000, none⟩] : ℝ) ≠ 0
  ∧ (50 : ℚ) ≠ 0
  ∧ (2 : ℝ) ≠ 0
  ∧ (List.Forall₂ (fun pct a => pct * (totalMarketValue [⟨"A", 100000, none⟩] : ℝ) = a)
      (parametricVarPct [⟨"A", 100000, none⟩] 1 0)
      (parametricVarAbs [⟨"A", 100000, none⟩] 1 0)
    ∧ (historical_var_fields ([1] : List ℚ) (99/100) 50).2 * 50
        = (historical_var_fields ([1] : List ℚ) (99/100) 50).1
    ∧ (monte_carlo_var_fields ([1] : List ℝ) (99/100) 2).2 * 2
        = (monte_carlo_var_fields ([1] : List ℝ) (99/100) 2).1) :=
  ⟨by norm_num [totalMarketValue], by norm_num, by norm_num,
    var_percentage_consistent [⟨"A", 100000, none⟩] 1 0
      (by norm_num [totalMarketValue]) ([1] : List ℚ) (99/100) 50 (by norm_num)
      ([1] : List ℝ) (99/100) 2 (by norm_num)⟩

/-- C9: for every portfolio of positive positions and every time horizon, the
parametric var_absolute computed with z = normal_quantile(0.99) dominates the
one computed with z = normal_quantile(0.95), componentwise on the vector the
code produces: the quantile function is monotone and non-negative above the
median, and every coefficient total·√(volSq)·√t is non-negative. -/
theorem parametric_var_monotone_confidence (data : List Position) (t : ℕ)
    (h : ∀ p ∈ data, 0 < p.market_value) :
    List.Forall₂ (fun a b => a ≤ b)
      (parametricVarAbs data t (normPpf (95/100)))
      (parametricVarAbs data t (normPpf (99/100))) := by
  have hz12 : normPpf (95/100) ≤ normPpf (99/100) :=
    normPpf_le_normPpf (by norm_num) (by norm_num) (by norm_num)
  have hz0 : (0 : ℝ) ≤ normPpf (95/100) :=
    normPpf_nonneg (by norm_num) (by norm_num)
  have hT : (0 : ℝ) ≤ (totalMarketValue data : ℝ) := by
    rw [Rat.cast_nonneg]
    exact List.sum_nonneg (fun x hx => by
      obtain ⟨p, hp, rfl⟩ := List.mem_map.mp hx
      exact (h p hp).le)
  unfold parametricVarAbs
  refine forall2_map_map _ _ _ _ (fun v hv => ?_)
  have hv0 : (0 : ℝ) ≤ v := by
    obtain ⟨s, _, rfl⟩ := List.mem_map.mp hv
    exact Real.sqrt_nonneg _
  exact mul_le_mul_of_nonneg_left hz12
    (mul_nonneg (mul_nonneg hT hv0) (Real.sqrt_nonneg _))

/-- C9 witness: the monotonicity theorem at a concrete two-position positive
portfolio, discharging the positivity hypothesis there. -/
theorem parametric_var_monotone_confidence_witness :
    (∀ p ∈ [(⟨"A", 80000, some (1/10)⟩ : Position), ⟨"B", 20000, some (3/10)⟩],
        0 < p.market_value)
  ∧ List.Forall₂ (fun a b => a ≤ b)
      (parametricVarAbs [⟨"A", 80000, some (1/10)⟩, ⟨"B", 20000, some (3/10)⟩] 1
        (normPpf (95/100)))
      (parametricVarAbs [⟨"A", 80000, some (1/10)⟩, ⟨"B", 20000, some (3/10)⟩] 1
        (normPpf (99/100))) :=
  ⟨by intro p hp; fin_cases hp <;> norm_num,
    parametric_var_monotone_confidence _ 1
      (by intro p hp; fin_cases hp <;> norm_num)⟩

/-- C10: a falsy confidence level (0.0) or time horizon (0) passed to
calculate_portfolio_var or calculate_expected_shortfall is silently replaced
by the config defaults 0.99 and 1 by the Python `or` idiom, so the call
behaves exactly like the call with no arguments (and like the call with the
defaults passed explicitly); no error is raised and the zero values are never
used. -/
theorem falsy_params_replaced_by_defaults (data : List Position) (method : String)
    (randH : ℕ → List ℚ) (randMC : ℕ → ℕ → ℝ) :
    calculate_portfolio_var data method (some 0) (some 0) randH randMC
      = calculate_portfolio_var data method none none randH randMC
  ∧ calculate_portfolio_var data method none none randH randMC
      = calculate_portfolio_var data method (some (99/100)) (some 1) randH randMC
  ∧ pyOrQ (some 0) (99/100) = 99/100
  ∧ pyOrNat (some 0) 1 = 1
  ∧ calculate_expected_shortfall data (some 0) randH randMC
      = calculate_expected_shortfall data none randH randMC := by
  have hq : pyOrQ (some 0) (99/100) = pyOrQ none (99/100) := by norm_num [pyOrQ]
  have hq2 : pyOrQ (some (99/100)) (99/100) = pyOrQ none (99/100) := by
    norm_num [pyOrQ]
  have hn : pyOrNat (some 0) 1 = pyOrNat none 1 := by norm_num [pyOrNat]
  have hn2 : pyOrNat (some 1) 1 = pyOrNat none 1 := by norm_num [pyOrNat]
  refine ⟨?_, ?_, by norm_num [pyOrQ], by norm_num [pyOrNat], ?_⟩
  · simp only [calculate_portfolio_var, hq, hn]
  · simp only [calculate_portfolio_var, hq2, hn2]
  · simp only [calculate_expected_shortfall, calculate_portfolio_var, hq, hn]

end MSRisk
